import Mathlib

/-!
Verification of pqsecure-mesh core subsystems against their specification.

Each section shallowly embeds one Rust module of the repository
(policy engine, SPIFFE ID parsing, CA revocation reasons, gRPC detection,
identity status, metrics counters, connection handlers, fingerprints)
and proves or refutes the spec claims about it.
-/

/-- Model of Rust's `str::to_lowercase` as used in this repository: all strings
it is applied to (protocol names, revocation reasons) are ASCII, where Unicode
lowercasing coincides with per-character ASCII lowercasing. -/
def strToLower (s : String) : String :=
  String.mk (s.toList.map Char.toLower)

instance exceptDecEq {ε α : Type} [DecidableEq ε] [DecidableEq α] :
    DecidableEq (Except ε α) := fun x y =>
  match x, y with
  | .ok a, .ok b =>
    if h : a = b then .isTrue (by rw [h])
    else .isFalse (by intro hc; cases hc; exact h rfl)
  | .error a, .error b =>
    if h : a = b then .isTrue (by rw [h])
    else .isFalse (by intro hc; cases hc; exact h rfl)
  | .ok _, .error _ => .isFalse (by intro hc; cases hc)
  | .error _, .ok _ => .isFalse (by intro hc; cases hc)

namespace Policy

/-- Pattern for matching SPIFFE IDs (src/policy/model.rs, `SpiffeIdPattern`). -/
inductive SpiffeIdPattern where
  | Any : SpiffeIdPattern
  | Exact : String → SpiffeIdPattern
  | Regex : String → SpiffeIdPattern
deriving DecidableEq, Repr

/-- Pattern for matching methods (src/policy/model.rs, `MethodPattern`). -/
inductive MethodPattern where
  | Any : MethodPattern
  | Exact : String → MethodPattern
  | Regex : String → MethodPattern
deriving DecidableEq, Repr

/-- Pattern for matching protocols (src/policy/model.rs, `ProtocolPattern`).
No regex variant exists for protocols. -/
inductive ProtocolPattern where
  | Any : ProtocolPattern
  | Exact : String → ProtocolPattern
deriving DecidableEq, Repr

/-- A compiled policy rule (src/policy/model.rs, `CompiledRule`). -/
structure CompiledRule where
  spiffe_id : SpiffeIdPattern
  protocol : ProtocolPattern
  method : MethodPattern
  allow : Bool
deriving DecidableEq, Repr

/-- A compiled policy (src/policy/model.rs, `CompiledPolicy`). -/
structure CompiledPolicy where
  default_action : Bool
  rules : List CompiledRule
deriving DecidableEq, Repr

/-- `YamlPolicyEngine::match_spiffe_id` (src/policy/engine.rs:98-118).
Regex matching is delegated to the external regex crate, embedded here as the
parameter `regexMatch`; the engine's regex cache is pure memoisation and has no
observable effect. -/
def match_spiffe_id (regexMatch : String → String → Bool) :
    SpiffeIdPattern → String → Bool
  | .Any, _ => true
  | .Exact expected, s => expected == s
  | .Regex r, s => regexMatch r s

/-- `YamlPolicyEngine::match_method` (src/policy/engine.rs:121-141). -/
def match_method (regexMatch : String → String → Bool) :
    MethodPattern → String → Bool
  | .Any, _ => true
  | .Exact expected, m => expected == m
  | .Regex r, m => regexMatch r m

/-- `YamlPolicyEngine::match_protocol` (src/policy/engine.rs:144-149):
case-insensitive comparison for the exact pattern. -/
def match_protocol : ProtocolPattern → String → Bool
  | .Any, _ => true
  | .Exact expected, p => strToLower expected == strToLower p

/-- The rule loop inside `YamlPolicyEngine::allow` (src/policy/engine.rs:160-182):
three `continue` guards per rule, first full match returns its `allow`. -/
def allowLoop (regexMatch : String → String → Bool) :
    List CompiledRule → String → String → String → Bool → Bool
  | [], _, _, _, default_action => default_action
  | rule :: rest, spiffe_id, method, protocol, default_action =>
    if !(match_spiffe_id regexMatch rule.spiffe_id spiffe_id) then
      allowLoop regexMatch rest spiffe_id method protocol default_action
    else if !(match_protocol rule.protocol protocol) then
      allowLoop regexMatch rest spiffe_id method protocol default_action
    else if !(match_method regexMatch rule.method method) then
      allowLoop regexMatch rest spiffe_id method protocol default_action
    else
      rule.allow

/-- `YamlPolicyEngine::allow` (src/policy/engine.rs:153-190): the protocol is
fixed to the string "tcp" before the rules are walked. -/
def allow (regexMatch : String → String → Bool) (policy : CompiledPolicy)
    (spiffe_id method : String) : Bool :=
  let protocol := "tcp"
  allowLoop regexMatch policy.rules spiffe_id method protocol policy.default_action

/-- Whether one rule matches a request, used to state the first-match spec. -/
def ruleMatches (regexMatch : String → String → Bool) (rule : CompiledRule)
    (spiffe_id method protocol : String) : Bool :=
  match_spiffe_id regexMatch rule.spiffe_id spiffe_id &&
  match_protocol rule.protocol protocol &&
  match_method regexMatch rule.method method

/-- Spec-side restatement of evaluation (spec section 4.10): the first rule all
of whose matchers match decides; otherwise `default_action`. -/
def allowFirstMatchSpec (regexMatch : String → String → Bool)
    (policy : CompiledPolicy) (spiffe_id method : String) : Bool :=
  match policy.rules.find? (fun r => ruleMatches regexMatch r spiffe_id method "tcp") with
  | some r => r.allow
  | none => policy.default_action

lemma allowLoop_eq_find (regexMatch : String → String → Bool)
    (rules : List CompiledRule) (spiffe_id method protocol : String)
    (default_action : Bool) :
    allowLoop regexMatch rules spiffe_id method protocol default_action =
      match rules.find? (fun r => ruleMatches regexMatch r spiffe_id method protocol) with
      | some r => r.allow
      | none => default_action := by
  induction rules with
  | nil => rfl
  | cons rule rest ih =>
    by_cases h1 : match_spiffe_id regexMatch rule.spiffe_id spiffe_id = true
    · by_cases h2 : match_protocol rule.protocol protocol = true
      · by_cases h3 : match_method regexMatch rule.method method = true
        · simp [allowLoop, List.find?, ruleMatches, h1, h2, h3]
        · simp only [Bool.not_eq_true] at h3
          simp [allowLoop, List.find?, ruleMatches, h1, h2, h3, ih]
      · simp only [Bool.not_eq_true] at h2
        simp [allowLoop, List.find?, ruleMatches, h1, h2, ih]
    · simp only [Bool.not_eq_true] at h1
      simp [allowLoop, List.find?, ruleMatches, h1, ih]

lemma find?_filter_tcp (regexMatch : String → String → Bool)
    (rules : List CompiledRule) (s m : String) :
    (rules.filter (fun r => match_protocol r.protocol "tcp")).find?
        (fun r => ruleMatches regexMatch r s m "tcp") =
      rules.find? (fun r => ruleMatches regexMatch r s m "tcp") := by
  induction rules with
  | nil => rfl
  | cons rule rest ih =>
    by_cases hp : match_protocol rule.protocol "tcp" = true
    · by_cases hr : ruleMatches regexMatch rule s m "tcp" = true
      · simp [List.filter, List.find?, hp, hr]
      · simp only [Bool.not_eq_true] at hr
        simp [List.filter, List.find?, hp, hr, ih]
    · have hr : ruleMatches regexMatch rule s m "tcp" = false := by
        simp only [Bool.not_eq_true] at hp
        simp [ruleMatches, hp]
      simp [List.filter, List.find?, hp, hr, ih]

/-- C1: `YamlPolicyEngine::allow` walks the compiled rules in source order and
returns the `allow` value of the first rule whose spiffe_id, protocol and
method matchers all match, falling back to `default_action` when no rule
matches; for an empty rule list it returns `default_action` for all inputs
(so always false when `default_action` is false and always true when it is
true). -/
theorem allow_first_match_or_default :
    (∀ (regexMatch : String → String → Bool) (policy : CompiledPolicy)
        (spiffe_id method : String),
      allow regexMatch policy spiffe_id method =
        allowFirstMatchSpec regexMatch policy spiffe_id method) ∧
    (∀ (regexMatch : String → String → Bool) (default_action : Bool)
        (spiffe_id method : String),
      allow regexMatch ⟨default_action, []⟩ spiffe_id method = default_action) := by
  constructor
  · intro regexMatch policy s m
    simp [allow, allowFirstMatchSpec, allowLoop_eq_find]
  · intro regexMatch default_action s m
    rfl

/-- C9: `YamlPolicyEngine::allow` evaluates every protocol matcher against the
fixed string "tcp": removing the rules whose protocol matcher rejects "tcp"
never changes the decision, and an Exact protocol pattern not
case-insensitively equal to "tcp" (such as "http" or "grpc") never matches. -/
theorem allow_protocol_fixed_tcp :
    (∀ (regexMatch : String → String → Bool) (policy : CompiledPolicy)
        (spiffe_id method : String),
      allow regexMatch
          ⟨policy.default_action,
            policy.rules.filter (fun r => match_protocol r.protocol "tcp")⟩
          spiffe_id method =
        allow regexMatch policy spiffe_id method) ∧
    (∀ e : String, strToLower e ≠ "tcp" → match_protocol (.Exact e) "tcp" = false) ∧
    match_protocol (.Exact "http") "tcp" = false ∧
    match_protocol (.Exact "grpc") "tcp" = false := by
  refine ⟨?_, ?_, by decide, by decide⟩
  · intro regexMatch policy s m
    have h1 : allow regexMatch
        ⟨policy.default_action,
          policy.rules.filter (fun r => match_protocol r.protocol "tcp")⟩ s m =
        allowLoop regexMatch
          (policy.rules.filter (fun r => match_protocol r.protocol "tcp"))
          s m "tcp" policy.default_action := rfl
    have h2 : allow regexMatch policy s m =
        allowLoop regexMatch policy.rules s m "tcp" policy.default_action := rfl
    rw [h1, h2, allowLoop_eq_find, allowLoop_eq_find, find?_filter_tcp]
  · intro e he
    have htcp : strToLower "tcp" = "tcp" := by decide
    simp [match_protocol, htcp, he]

/-- C9 witness: the Exact protocol pattern "http" can never match the fixed
protocol string "tcp". -/
theorem allow_protocol_fixed_tcp_witness :
    strToLower "http" ≠ "tcp" ∧ match_protocol (.Exact "http") "tcp" = false :=
  ⟨by decide, allow_protocol_fixed_tcp.2.1 "http" (by decide)⟩

end Policy

namespace Identity

/-- Error kind relevant to SPIFFE parsing (src/common, `Error::InvalidSpiffeId`). -/
inductive Error where
  | InvalidSpiffeId : String → Error
deriving DecidableEq, Repr

/-- `SpiffeId` (src/identity/types.rs:7-14). -/
structure SpiffeId where
  uri : String
  tenant : String
  service : String
deriving DecidableEq, Repr

/-- The pieces of a parsed URL consumed by the repository: the (lowercased)
scheme, the optional host and the path. -/
structure UrlParts where
  scheme : String
  host : Option String
  path : String
deriving DecidableEq, Repr

/-- Whether a character may appear in a URL scheme after the first letter. -/
def schemeCharOk (c : Char) : Bool :=
  c.isAlphanum || c == '+' || c == '-' || c == '.'

/-- Split a character list at the first occurrence of `sep`; none when absent. -/
def splitFirst (sep : Char) : List Char → Option (List Char × List Char)
  | [] => none
  | c :: rest =>
    if c == sep then some ([], rest)
    else
      match splitFirst sep rest with
      | some (a, b) => some (c :: a, b)
      | none => none

/-- Model of the external url crate's `Url::parse` as used by this repository,
restricted to what the SPIFFE code observes: the scheme is validated
(leading letter, then letters, digits, plus, minus, dot) and lowercased; after
"://" the authority up to the first slash becomes the host (empty authority
gives no host) and the remainder starting at that slash is the path; a
non-authority form keeps the rest as an opaque path with no host; a string
with no colon fails to parse. -/
def urlParse (s : String) : Option UrlParts :=
  match splitFirst ':' s.toList with
  | none => none
  | some (schemeChars, rest) =>
    if schemeChars.isEmpty then none
    else if !(schemeChars.headD 'a').isAlpha then none
    else if !(schemeChars.all schemeCharOk) then none
    else
      let scheme := String.mk (schemeChars.map Char.toLower)
      match rest with
      | '/' :: '/' :: afterAuth =>
        let hostChars := afterAuth.takeWhile (fun c => !(c == '/'))
        let pathChars := afterAuth.dropWhile (fun c => !(c == '/'))
        let host := if hostChars.isEmpty then none else some (String.mk hostChars)
        some { scheme := scheme, host := host, path := String.mk pathChars }
      | other => some { scheme := scheme, host := none, path := String.mk other }

/-- Whether an `Except` value is a success. -/
def isOkB {ε α : Type} : Except ε α → Bool
  | .ok _ => true
  | .error _ => false

/-- `SpiffeId::from_uri` (src/identity/types.rs:69-93): parse the URI, require
scheme "spiffe", a host (tenant), and a path that is neither empty nor "/";
the service is the path with leading slashes stripped and the `uri` field
keeps the input byte-for-byte. -/
def from_uri (uri : String) : Except Error SpiffeId :=
  match urlParse uri with
  | none => .error (.InvalidSpiffeId "Invalid URI")
  | some u =>
    if u.scheme != "spiffe" then
      .error (.InvalidSpiffeId "Invalid scheme, must be spiffe")
    else
      match u.host with
      | none => .error (.InvalidSpiffeId "Missing host component (tenant)")
      | some host =>
        if u.path == "" || u.path == "/" then
          .error (.InvalidSpiffeId "Missing path component (service)")
        else
          .ok { uri := uri, tenant := host,
                service := String.mk (u.path.toList.dropWhile (fun c => c == '/')) }

/-- `SpiffeUtils::is_valid_spiffe_uri` (src/identity/spiffe.rs:13-21). -/
def is_valid_spiffe_uri (uri : String) : Bool :=
  match urlParse uri with
  | some u =>
    u.scheme == "spiffe" && u.host.isSome && !(u.path == "") && !(u.path == "/")
  | none => false

/-- C5: `SpiffeId::from_uri` succeeds exactly when
`SpiffeUtils::is_valid_spiffe_uri` returns true, and on success the returned
`uri` field is the input string byte-for-byte. -/
theorem from_uri_valid_iff :
    ∀ s : String,
      (isOkB (from_uri s) = true ↔ is_valid_spiffe_uri s = true) ∧
      (∀ id : SpiffeId, from_uri s = .ok id → id.uri = s) := by
  intro s
  unfold from_uri is_valid_spiffe_uri
  cases hu : urlParse s with
  | none => simp [isOkB]
  | some u =>
    by_cases h1 : u.scheme = "spiffe"
    · have hb1 : (u.scheme != "spiffe") = false := by simp [h1]
      cases hh : u.host with
      | none => simp [hb1, h1, hh, isOkB]
      | some host =>
        by_cases h2 : u.path = ""
        · have hb2 : (u.path == "" || u.path == "/") = true := by simp [h2]
          simp [hb1, hb2, h1, hh, h2, isOkB]
        · by_cases h3 : u.path = "/"
          · have hb2 : (u.path == "" || u.path == "/") = true := by simp [h3]
            simp [hb1, hb2, h1, hh, h2, h3, isOkB]
          · have hb2 : (u.path == "" || u.path == "/") = false := by simp [h2, h3]
            constructor
            · simp [hb1, hb2, h1, hh, h2, h3, isOkB]
            · intro id hid
              simp only [hb1, hb2, hh, Bool.false_eq_true, if_false,
                Except.ok.injEq] at hid
              rw [← hid]
    · have hb1 : (u.scheme != "spiffe") = true := by simp [h1]
      simp [hb1, h1, isOkB]

/-- C5 witness: on the concrete input "spiffe://example.org/svc" parsing
succeeds, the validator agrees, and the stored `uri` equals the input. -/
theorem from_uri_valid_iff_witness :
    from_uri "spiffe://example.org/svc" =
        .ok { uri := "spiffe://example.org/svc", tenant := "example.org",
              service := "svc" } ∧
    is_valid_spiffe_uri "spiffe://example.org/svc" = true ∧
    (SpiffeId.mk "spiffe://example.org/svc" "example.org" "svc").uri =
      "spiffe://example.org/svc" :=
  ⟨by decide, by decide,
    (from_uri_valid_iff "spiffe://example.org/svc").2 _ (by decide)⟩

/-- C6 counterexample: contrary to the claim that every URI whose path ends in
a slash is rejected, `from_uri` accepts "spiffe://td/s/" (its parsed path
"/s/" is neither empty nor "/") and returns service "s/". -/
theorem from_uri_trailing_slash_counterexample :
    from_uri "spiffe://td/s/" =
      .ok { uri := "spiffe://td/s/", tenant := "td", service := "s/" } := by
  decide

/-- C6 amended: `from_uri` rejects exactly the bare trailing-slash forms —
inputs whose parsed path is empty or the single "/" (such as "spiffe://td/")
— while a trailing slash after a non-empty path (such as "spiffe://td/s/") is
accepted. -/
theorem from_uri_trailing_slash_amended :
    isOkB (from_uri "spiffe://td/") = false ∧
    from_uri "spiffe://td/s/" =
      .ok { uri := "spiffe://td/s/", tenant := "td", service := "s/" } ∧
    (∀ (s : String) (u : UrlParts), urlParse s = some u →
      (u.path = "" ∨ u.path = "/") → isOkB (from_uri s) = false) := by
  refine ⟨by decide, by decide, ?_⟩
  intro s u hu hp
  unfold from_uri
  rw [hu]
  have hb2 : (u.path == "" || u.path == "/") = true := by
    rcases hp with h | h <;> simp [h]
  by_cases h1 : u.scheme = "spiffe"
  · have hb1 : (u.scheme != "spiffe") = false := by simp [h1]
    cases hh : u.host with
    | none => simp [hb1, hh, isOkB]
    | some host => simp [hb1, hh, hb2, isOkB]
  · have hb1 : (u.scheme != "spiffe") = true := by simp [h1]
    simp [hb1, isOkB]

/-- C6 amended witness: the bare form "spiffe://td/" parses with path "/" and
is rejected. -/
theorem from_uri_trailing_slash_amended_witness :
    urlParse "spiffe://td/" =
      some { scheme := "spiffe", host := some "td", path := "/" } ∧
    isOkB (from_uri "spiffe://td/") = false :=
  ⟨by decide,
    from_uri_trailing_slash_amended.2.2 "spiffe://td/"
      { scheme := "spiffe", host := some "td", path := "/" }
      (by decide) (Or.inr (by decide))⟩

end Identity

namespace Ca

/-- `RevocationReason` (src/ca/types.rs:72-93). -/
inductive RevocationReason where
  | Unspecified
  | KeyCompromise
  | CACompromise
  | AffiliationChanged
  | Superseded
  | CessationOfOperation
  | CertificateHold
  | RemoveFromCRL
  | PrivilegeWithdrawn
  | AACompromise
deriving DecidableEq, Repr

/-- The numeric discriminants assigned in src/ca/types.rs:72-93, observed by
Rust's `as i32` cast. -/
def RevocationReason.code : RevocationReason → Nat
  | .Unspecified => 0
  | .KeyCompromise => 1
  | .CACompromise => 2
  | .AffiliationChanged => 3
  | .Superseded => 4
  | .CessationOfOperation => 5
  | .CertificateHold => 6
  | .RemoveFromCRL => 8
  | .PrivilegeWithdrawn => 9
  | .AACompromise => 10

/-- The branch on the lowercased reason inside `RevocationReason::from_str`
(src/ca/types.rs:97-111), in source order. -/
def RevocationReason.fromLower (s : String) : RevocationReason :=
  if s == "unspecified" then .Unspecified
  else if s == "keycompromise" || s == "key compromise" then .KeyCompromise
  else if s == "cacompromise" || s == "ca compromise" then .CACompromise
  else if s == "affiliationchanged" || s == "affiliation changed" then .AffiliationChanged
  else if s == "superseded" then .Superseded
  else if s == "cessationofoperation" || s == "cessation of operation" then
    .CessationOfOperation
  else if s == "certificatehold" || s == "certificate hold" then .CertificateHold
  else if s == "removefromcrl" || s == "remove from crl" then .RemoveFromCRL
  else if s == "privilegewithdrawn" || s == "privilege withdrawn" then
    .PrivilegeWithdrawn
  else if s == "aacompromise" || s == "aa compromise" then .AACompromise
  else .Unspecified

/-- `RevocationReason::from_str` (src/ca/types.rs:97-111): match on the
lowercased input. -/
def RevocationReason.from_str (reason : String) : RevocationReason :=
  RevocationReason.fromLower (strToLower reason)

/-- `SmallstepCaClient::reason_to_code` (src/ca/smallstep.rs:106-108), used to
fill `reasonCode` in the revoke request (src/ca/smallstep.rs:193-198). -/
def reason_to_code (reason : String) : Nat :=
  (RevocationReason.from_str reason).code

/-- The ten camelCase reason names of the claim, lowercased, with their RFC
5280 codes. -/
def reasonNameCodePairs : List (String × Nat) :=
  [ ("unspecified", 0), ("keycompromise", 1), ("cacompromise", 2),
    ("affiliationchanged", 3), ("superseded", 4), ("cessationofoperation", 5),
    ("certificatehold", 6), ("removefromcrl", 8), ("privilegewithdrawn", 9),
    ("aacompromise", 10)]

/-- Every lowercased spelling `from_str` recognises. -/
def recognizedReasonStrings : List String :=
  [ "unspecified", "keycompromise", "key compromise", "cacompromise",
    "ca compromise", "affiliationchanged", "affiliation changed", "superseded",
    "cessationofoperation", "cessation of operation", "certificatehold",
    "certificate hold", "removefromcrl", "remove from crl",
    "privilegewithdrawn", "privilege withdrawn", "aacompromise",
    "aa compromise"]

/-- C7: `RevocationReason::from_str` maps each of the ten RFC 5280 reason
names, case-insensitively, to its numeric code; any string it does not
recognise maps to Unspecified (code 0); and revoking with reason
"keyCompromise" produces reasonCode 1. -/
theorem revocation_reason_codes :
    (∀ p ∈ reasonNameCodePairs, ∀ s : String,
      strToLower s = p.1 → (RevocationReason.from_str s).code = p.2) ∧
    (∀ s : String, strToLower s ∉ recognizedReasonStrings →
      RevocationReason.from_str s = .Unspecified) ∧
    reason_to_code "keyCompromise" = 1 := by
  refine ⟨?_, ?_, by decide⟩
  · intro p hp s h
    unfold RevocationReason.from_str
    rw [h]
    fin_cases hp <;> decide
  · intro s h
    unfold RevocationReason.from_str
    generalize hgen : strToLower s = t at h
    simp only [recognizedReasonStrings, List.mem_cons, List.not_mem_nil,
      or_false, not_or] at h
    obtain ⟨h1, h2, h3, h4, h5, h6, h7, h8, h9, h10,
      h11, h12, h13, h14, h15, h16, h17, h18⟩ := h
    simp [RevocationReason.fromLower, h1, h2, h3, h4, h5, h6, h7, h8, h9,
      h10, h11, h12, h13, h14, h15, h16, h17, h18]

/-- C7 witness: "KeyCompromise" (mixed case) maps to code 1, and the
unrecognised string "bogus" maps to Unspecified. -/
theorem revocation_reason_codes_witness :
    (RevocationReason.from_str "KeyCompromise").code = 1 ∧
    RevocationReason.from_str "bogus" = .Unspecified :=
  ⟨revocation_reason_codes.1 ("keycompromise", 1) (by decide) "KeyCompromise"
      (by decide),
    revocation_reason_codes.2.1 "bogus" (by decide)⟩

/-- `CertificateStatus` (src/ca/types.rs:42-59); timestamps modelled as Nat. -/
inductive CertificateStatus where
  | Valid
  | Revoked (reason : String) (revoked_at : Nat)
  | Expired (expired_at : Nat)
  | Unknown
deriving DecidableEq, Repr

end Ca

namespace Identity

/-- `IdentityStatus` (src/identity/types.rs:56-65). -/
inductive IdentityStatus where
  | Valid
  | Revoked
  | Expired
  | Unknown
deriving DecidableEq, Repr

/-- `ServiceIdentity` (src/identity/types.rs:18-37); `SystemTime` fields are
modelled as Nat. The `serial` field is the one `IdentityService` reads
(src/identity/service.rs:202,229); it is absent from the types.rs draft of the
struct, one of the repository's draft inconsistencies. -/
structure ServiceIdentity where
  spiffe_id : SpiffeId
  cert_pem : String
  key_pem : String
  chain_pem : Option String
  fingerprint : String
  serial : String
  issued_at : Nat
  expires_at : Nat
  signature_algorithm : String
  is_post_quantum : Bool
deriving DecidableEq, Repr

/-- `ServiceIdentity::status` (src/identity/types.rs:114-127), with the ambient
`SystemTime::now()` made an explicit argument. -/
def ServiceIdentity.status (idn : ServiceIdentity) (now : Nat) : IdentityStatus :=
  if now < idn.issued_at then .Unknown
  else if idn.expires_at ≤ now then .Expired
  else .Valid

/-- `IdentityService::check_identity_status` (src/identity/service.rs:223-250):
the local status is computed first; only a locally Valid identity consults the
CA, whose call outcome enters as the value `caResult` (error = CA
unreachable). -/
def check_identity_status (now : Nat) (idn : ServiceIdentity)
    (caResult : Except String Ca.CertificateStatus) : IdentityStatus :=
  let status := idn.status now
  if status = .Valid then
    match caResult with
    | .ok .Valid => .Valid
    | .ok (.Revoked _ _) => .Revoked
    | .ok (.Expired _) => .Expired
    | .ok .Unknown => .Unknown
    | .error _ => status
  else
    status

/-- A concrete identity, locally Valid at time 50. -/
def idValid : ServiceIdentity :=
  { spiffe_id := { uri := "spiffe://td/s", tenant := "td", service := "s" },
    cert_pem := "", key_pem := "", chain_pem := none, fingerprint := "",
    serial := "serial-1", issued_at := 0, expires_at := 100,
    signature_algorithm := "ecdsa-with-SHA256", is_post_quantum := false }

/-- C3 counterexample: for an identity that is locally Valid, a CA Unknown
result does not preserve the local Valid status — `check_identity_status`
returns Unknown. -/
theorem check_identity_status_counterexample :
    idValid.status 50 = .Valid ∧
    check_identity_status 50 idValid (.ok .Unknown) = .Unknown := by
  decide

/-- C3 amended: for a locally Valid identity the returned status mirrors the
CA result on every variant (Valid, Revoked, Expired, Unknown) — not only
Revoked — while a CA error (CA unreachable) preserves the local Valid status;
a locally non-Valid status is returned directly. -/
theorem check_identity_status_mirrors_ca :
    ∀ (now : Nat) (idn : ServiceIdentity)
        (caResult : Except String Ca.CertificateStatus),
      (idn.status now = .Valid →
        check_identity_status now idn caResult =
          match caResult with
          | .ok .Valid => .Valid
          | .ok (.Revoked _ _) => .Revoked
          | .ok (.Expired _) => .Expired
          | .ok .Unknown => .Unknown
          | .error _ => .Valid) ∧
      (idn.status now ≠ .Valid →
        check_identity_status now idn caResult = idn.status now) := by
  intro now idn caResult
  constructor
  · intro h
    unfold check_identity_status
    simp only [h, if_pos rfl, if_true, eq_self_iff_true]
  · intro h
    unfold check_identity_status
    simp only [if_neg h]

/-- C3 amended witness: on the concrete locally-Valid identity, a CA Revoked
result downgrades to Revoked, and a CA error preserves Valid. -/
theorem check_identity_status_mirrors_ca_witness :
    idValid.status 50 = .Valid ∧
    check_identity_status 50 idValid (.ok (.Revoked "keyCompromise" 60)) =
      .Revoked ∧
    check_identity_status 50 idValid (.error "connection refused") = .Valid :=
  ⟨by decide,
    (check_identity_status_mirrors_ca 50 idValid
        (.ok (.Revoked "keyCompromise" 60))).1 (by decide),
    (check_identity_status_mirrors_ca 50 idValid
        (.error "connection refused")).1 (by decide)⟩

end Identity

namespace Proxy

/-- The 24-byte HTTP/2 connection preface
"PRI * HTTP/2.0\r\n\r\nSM\r\n\r\n" as bytes
(src/proxy/protocol/grpc.rs:52). -/
def http2Preface : List Nat :=
  [80, 82, 73, 32, 42, 32, 72, 84, 84, 80, 47, 50, 46, 48, 13, 10, 13, 10,
   83, 77, 13, 10, 13, 10]

/-- `GrpcHandler::is_grpc` (src/proxy/protocol/grpc.rs:32-68) as a function of
the successfully peeked bytes (the peek buffer holds at most 24 bytes); the
timeout and socket-error paths of the source, which return false without any
bytes, are outside this pure model. -/
def is_grpc_peek (peeked : List Nat) : Bool :=
  let n := peeked.length
  if 3 ≤ n then
    if 24 ≤ n then peeked.take 24 == http2Preface
    else if 5 ≤ n && peeked.getD 3 0 == 4 then true
    else false
  else false

/-- The acceptance condition exactly as claim C8 words it: full preface, or
fewer than 24 bytes with at least 5 peeked and the 5th byte equal to 0x04. -/
def grpcClaimPred (peeked : List Nat) : Bool :=
  (24 ≤ peeked.length && peeked.take 24 == http2Preface) ||
  (peeked.length < 24 && 5 ≤ peeked.length && peeked.getD 4 0 == 4)

end Proxy

namespace Proxy

/-- C8 counterexample: on the 5-byte peek 00 00 00 00 04 the claim's condition
holds (5th byte is 0x04) but `is_grpc` returns false — the code tests the 4th
byte (index 3), not the 5th. -/
theorem is_grpc_fifth_byte_counterexample :
    is_grpc_peek [0, 0, 0, 0, 4] = false ∧
    grpcClaimPred [0, 0, 0, 0, 4] = true := by
  decide

/-- C8 amended: `is_grpc` returns true iff the peek holds at least 24 bytes
beginning with the exact HTTP/2 connection preface, or between 5 and 23 bytes
whose 4th byte (index 3, the HTTP/2 frame-type position) equals 0x04. -/
theorem is_grpc_fourth_byte :
    ∀ peeked : List Nat,
      is_grpc_peek peeked = true ↔
        (24 ≤ peeked.length ∧ peeked.take 24 = http2Preface) ∨
        (5 ≤ peeked.length ∧ peeked.length < 24 ∧ peeked.getD 3 0 = 4) := by
  intro peeked
  simp only [is_grpc_peek]
  split_ifs with h3 h24 hset
  · simp only [beq_iff_eq]
    constructor
    · intro h
      exact Or.inl ⟨h24, h⟩
    · rintro (⟨_, h⟩ | ⟨_, hlt, _⟩)
      · exact h
      · omega
  · simp only [Bool.and_eq_true, decide_eq_true_eq, beq_iff_eq] at hset
    refine ⟨fun _ => Or.inr ⟨hset.1, by omega, hset.2⟩, fun _ => rfl⟩
  · simp only [Bool.and_eq_true, decide_eq_true_eq, beq_iff_eq, not_and] at hset
    constructor
    · intro h
      cases h
    · rintro (⟨h, _⟩ | ⟨h5, _, h4⟩) <;> exfalso
      · omega
      · exact hset h5 h4
  · constructor
    · intro h
      cases h
    · rintro (⟨h, _⟩ | ⟨h5, _, _⟩) <;> exfalso <;> omega

end Proxy

namespace Proxy

/-- Error kinds of `PqSecureError` (src/common/errors.rs) reached by the
connection handlers. -/
inductive PqSecureError where
  | AuthorizationError (msg : String)
  | AuthenticationError (msg : String)
  | ConnectionError (msg : String)
deriving DecidableEq, Repr

/-- `ProtocolType` (src/common). -/
inductive ProtocolType where
  | Tcp
  | Http
  | Grpc
deriving DecidableEq, Repr

/-- The `{:?}` rendering of `ProtocolType` used in the denial message
(src/proxy/handler.rs:80). -/
def ProtocolType.debugName : ProtocolType → String
  | .Tcp => "Tcp"
  | .Http => "Http"
  | .Grpc => "Grpc"

/-- The observable actions a handler performs, in order. Upstream effects are
the TCP connect to the backend and the bidirectional byte forwarding. -/
inductive ProxyEffect where
  | recordPolicyDecision (spiffe_id method : String) (allowed : Bool)
  | connectBackend (addr : String)
  | forwardData
deriving DecidableEq, Repr

/-- Whether an effect touches the upstream socket. -/
def ProxyEffect.isUpstream : ProxyEffect → Bool
  | .connectBackend _ => true
  | .forwardData => true
  | .recordPolicyDecision _ _ _ => false

/-- Modelled from the spec: `telemetry::record_policy_decision` is called by
every handler but is not defined under src/; per spec section 4.8 a deny is
"counted as `rejected_requests`". This counts those increments in a trace. -/
def rejectedIncrements : List ProxyEffect → Nat
  | [] => 0
  | .recordPolicyDecision _ _ false :: rest => rejectedIncrements rest + 1
  | _ :: rest => rejectedIncrements rest

/-- `BaseHandler::connect_and_forward` (src/proxy/handler.rs:66-113) as a
trace-producing function: the upstream connect and the forward are IO actions
recorded as effects, with their outcomes supplied as values
(`connectOutcome` for `Forwarder::connect_to_backend`, `forwardOutcome` for
`Forwarder::forward`). -/
def connect_and_forward (backendAddr : String) (protocol_type : ProtocolType)
    (connectOutcome : Except PqSecureError Unit)
    (forwardOutcome : Except PqSecureError Unit) (allowed : Bool) :
    Except PqSecureError Unit × List ProxyEffect :=
  if !allowed then
    (.error (.AuthorizationError
        (protocol_type.debugName ++ " request denied by policy")), [])
  else
    match connectOutcome with
    | .error e => (.error e, [.connectBackend backendAddr])
    | .ok _ => (forwardOutcome, [.connectBackend backendAddr, .forwardData])

/-- `TcpHandler::handle` (src/proxy/protocol/raw_tcp.rs:61-99) as a trace: the
policy check on the placeholder SPIFFE ID and the fixed method "connect" is
recorded, a deny returns an AuthorizationError, and only an allow proceeds to
the backend connect and the forward. -/
def tcp_handle (regexMatch : String → String → Bool)
    (policy : Policy.CompiledPolicy) (backendAddr : String)
    (connectOutcome forwardOutcome : Except PqSecureError Unit) :
    Except PqSecureError Unit × List ProxyEffect :=
  let method := "connect"
  let spiffe_id := "spiffe://example.org/service/client"
  let allowed := Policy.allow regexMatch policy spiffe_id method
  let tele : List ProxyEffect := [.recordPolicyDecision spiffe_id method allowed]
  if !allowed then
    (.error (.AuthorizationError "Connection denied by policy"), tele)
  else
    match connectOutcome with
    | .error e => (.error e, tele ++ [.connectBackend backendAddr])
    | .ok _ =>
      (forwardOutcome, tele ++ [.connectBackend backendAddr, .forwardData])

/-- C2: a policy deny short-circuits before any upstream effect.
`connect_and_forward` called with allowed = false returns an
AuthorizationError and emits no effect at all, and `TcpHandler::handle` under
a denying policy records exactly one rejected-request increment, returns an
AuthorizationError, and emits no upstream effect — so no byte reaches the
upstream socket. -/
theorem deny_no_upstream_bytes :
    (∀ (backendAddr : String) (pt : ProtocolType)
        (connectOutcome forwardOutcome : Except PqSecureError Unit),
      connect_and_forward backendAddr pt connectOutcome forwardOutcome false =
        (.error (.AuthorizationError
            (pt.debugName ++ " request denied by policy")), [])) ∧
    (∀ (regexMatch : String → String → Bool) (policy : Policy.CompiledPolicy)
        (backendAddr : String)
        (connectOutcome forwardOutcome : Except PqSecureError Unit),
      Policy.allow regexMatch policy "spiffe://example.org/service/client"
          "connect" = false →
        (tcp_handle regexMatch policy backendAddr connectOutcome
            forwardOutcome).1 =
          .error (.AuthorizationError "Connection denied by policy") ∧
        (tcp_handle regexMatch policy backendAddr connectOutcome
            forwardOutcome).2.filter ProxyEffect.isUpstream = [] ∧
        rejectedIncrements
          (tcp_handle regexMatch policy backendAddr connectOutcome
            forwardOutcome).2 = 1) := by
  constructor
  · intro backendAddr pt c f
    rfl
  · intro regexMatch policy backendAddr c f h
    simp only [tcp_handle, h]
    refine ⟨rfl, rfl, rfl⟩

/-- C2 witness: under the empty default-deny policy the TCP handler denies,
emits no upstream effect, and counts one rejected request. -/
theorem deny_no_upstream_bytes_witness :
    Policy.allow (fun _ _ => false) (Policy.CompiledPolicy.mk false [])
        "spiffe://example.org/service/client" "connect" = false ∧
    (tcp_handle (fun _ _ => false) (Policy.CompiledPolicy.mk false [])
        "127.0.0.1:8080" (.ok ()) (.ok ())).2.filter ProxyEffect.isUpstream =
      [] :=
  ⟨rfl,
    (deny_no_upstream_bytes.2 (fun _ _ => false)
        (Policy.CompiledPolicy.mk false []) "127.0.0.1:8080" (.ok ()) (.ok ())
        rfl).2.1⟩

end Proxy

namespace Telemetry

/-- 2^64, the modulus of Rust's u64 (counters wrap in release builds). -/
def u64Mod : Nat := 18446744073709551616

/-- u64::MAX. -/
def u64Max : Nat := 18446744073709551615

/-- `MetricsData` (src/telemetry/metrics.rs:49-76); u64 counters as Nat and
the `chrono` timestamp as a Nat tick. The f64 field `avg_request_time_ms` is
untouched by the two functions modelled here and is omitted (floating point is
outside the embedding). -/
structure MetricsData where
  total_requests : Nat
  successful_requests : Nat
  failed_requests : Nat
  rejected_requests : Nat
  upstream_connections : Nat
  client_connections : Nat
  pqc_connections : Nat
  active_connections : Nat
  total_bytes : Nat
  upstream_received_bytes : Nat
  upstream_sent_bytes : Nat
  last_updated_at : Nat
deriving DecidableEq, Repr

/-- `MetricsData::default` (src/telemetry/metrics.rs:78-96): all counters zero
(the creation timestamp is tick 0 here). -/
def MetricsData.default : MetricsData :=
  { total_requests := 0, successful_requests := 0, failed_requests := 0,
    rejected_requests := 0, upstream_connections := 0,
    client_connections := 0, pqc_connections := 0, active_connections := 0,
    total_bytes := 0, upstream_received_bytes := 0, upstream_sent_bytes := 0,
    last_updated_at := 0 }

/-- `DefaultMetricsCollector::record_client_connection`
(src/telemetry/metrics.rs:224-240): a no-op when disabled; otherwise
increments `client_connections` and `active_connections` (and
`pqc_connections` when pqc), u64-wrapping, and stamps the clock. -/
def record_client_connection (enabled : Bool) (pqc : Bool) (now : Nat)
    (d : MetricsData) : MetricsData :=
  if !enabled then d
  else
    { d with
      client_connections := (d.client_connections + 1) % u64Mod,
      active_connections := (d.active_connections + 1) % u64Mod,
      pqc_connections :=
        if pqc then (d.pqc_connections + 1) % u64Mod else d.pqc_connections,
      last_updated_at := now }

/-- `DefaultMetricsCollector::record_client_disconnection`
(src/telemetry/metrics.rs:242-255): a no-op when disabled; otherwise
decrements `active_connections` only when it is strictly positive, and stamps
the clock. -/
def record_client_disconnection (enabled : Bool) (now : Nat)
    (d : MetricsData) : MetricsData :=
  if !enabled then d
  else
    { d with
      active_connections :=
        if 0 < d.active_connections then d.active_connections - 1
        else d.active_connections,
      last_updated_at := now }

/-- One call to either connection-metrics method. -/
inductive ConnEvent where
  | connect (pqc : Bool) (now : Nat)
  | disconnect (now : Nat)
deriving DecidableEq, Repr

/-- Run a sequence of connection/disconnection calls on the collector data. -/
def applyConnEvents (enabled : Bool) (d : MetricsData) :
    List ConnEvent → MetricsData
  | [] => d
  | .connect pqc now :: rest =>
    applyConnEvents enabled (record_client_connection enabled pqc now d) rest
  | .disconnect now :: rest =>
    applyConnEvents enabled (record_client_disconnection enabled now d) rest

/-- The claim's interleaving-wise clamped gauge: each connect adds one, each
disconnect subtracts one clamped at zero (Nat subtraction). -/
def clampGauge (g : Nat) : List ConnEvent → Nat
  | [] => g
  | .connect _ _ :: rest => clampGauge (g + 1) rest
  | .disconnect _ :: rest => clampGauge (g - 1) rest

/-- Number of connect events in a sequence. -/
def countConnects : List ConnEvent → Nat
  | [] => 0
  | .connect _ _ :: rest => countConnects rest + 1
  | .disconnect _ :: rest => countConnects rest

lemma record_client_connection_active (pqc : Bool) (now : Nat)
    (d : MetricsData) (h : d.active_connections + 1 < u64Mod) :
    (record_client_connection true pqc now d).active_connections =
      d.active_connections + 1 := by
  simp [record_client_connection, Nat.mod_eq_of_lt h]

lemma record_client_disconnection_active (now : Nat) (d : MetricsData) :
    (record_client_disconnection true now d).active_connections =
      d.active_connections - 1 := by
  simp only [record_client_disconnection, Bool.not_true, Bool.false_eq_true,
    if_false]
  by_cases h : 0 < d.active_connections
  · simp [h]
  · simp [h]
    omega

lemma applyConnEvents_active (es : List ConnEvent) :
    ∀ d : MetricsData, d.active_connections + countConnects es < u64Mod →
      (applyConnEvents true d es).active_connections =
          clampGauge d.active_connections es ∧
        clampGauge d.active_connections es ≤
          d.active_connections + countConnects es := by
  induction es with
  | nil =>
    intro d _
    exact ⟨rfl, Nat.le_add_right _ _⟩
  | cons e rest ih =>
    intro d h
    cases e with
    | connect pqc now =>
      have hcount : countConnects (ConnEvent.connect pqc now :: rest) =
          countConnects rest + 1 := rfl
      have hlt : d.active_connections + 1 < u64Mod := by
        rw [hcount] at h
        omega
      have hrec := record_client_connection_active pqc now d hlt
      have hih := ih (record_client_connection true pqc now d)
        (by rw [hrec]; rw [hcount] at h; omega)
      refine ⟨?_, ?_⟩
      · show (applyConnEvents true (record_client_connection true pqc now d)
            rest).active_connections = clampGauge (d.active_connections + 1) rest
        rw [hih.1, hrec]
      · show clampGauge (d.active_connections + 1) rest ≤
          d.active_connections + countConnects (ConnEvent.connect pqc now :: rest)
        have := hih.2
        rw [hrec] at this
        rw [hcount]
        omega
    | disconnect now =>
      have hcount : countConnects (ConnEvent.disconnect now :: rest) =
          countConnects rest := rfl
      have hrec := record_client_disconnection_active now d
      have hih := ih (record_client_disconnection true now d)
        (by rw [hrec]; rw [hcount] at h; omega)
      refine ⟨?_, ?_⟩
      · show (applyConnEvents true (record_client_disconnection true now d)
            rest).active_connections = clampGauge (d.active_connections - 1) rest
        rw [hih.1, hrec]
      · show clampGauge (d.active_connections - 1) rest ≤
          d.active_connections + countConnects (ConnEvent.disconnect now :: rest)
        have := hih.2
        rw [hrec] at this
        rw [hcount]
        omega

/-- C10: starting from the default (zero) data, after any sequence of
`record_client_connection` / `record_client_disconnection` calls on an enabled
collector whose connect count fits in a u64, the `active_connections` gauge
equals the interleaving-wise clamped difference of connects and disconnects
(never underflowing), is bounded by the number of connects, and in particular
never wraps to u64::MAX when fewer than u64::MAX connects occurred. -/
theorem active_connections_never_underflows :
    ∀ es : List ConnEvent, countConnects es < u64Mod →
      (applyConnEvents true MetricsData.default es).active_connections =
          clampGauge 0 es ∧
        clampGauge 0 es ≤ countConnects es ∧
        (countConnects es < u64Max →
          (applyConnEvents true MetricsData.default es).active_connections ≠
            u64Max) := by
  intro es h
  have hbase := applyConnEvents_active es MetricsData.default
    (by simpa [MetricsData.default] using h)
  have h0 : MetricsData.default.active_connections = 0 := rfl
  rw [h0] at hbase
  refine ⟨hbase.1, by simpa using hbase.2, ?_⟩
  intro hmax
  rw [hbase.1]
  have := hbase.2
  simp only [Nat.zero_add] at this
  omega

/-- C10 witness: one connect followed by two disconnects leaves the gauge at
zero (the second disconnect does not underflow). -/
theorem active_connections_never_underflows_witness :
    (applyConnEvents true MetricsData.default
        [ConnEvent.connect false 1, ConnEvent.disconnect 2,
          ConnEvent.disconnect 3]).active_connections =
      clampGauge 0
        [ConnEvent.connect false 1, ConnEvent.disconnect 2,
          ConnEvent.disconnect 3] :=
  (active_connections_never_underflows
    [ConnEvent.connect false 1, ConnEvent.disconnect 2, ConnEvent.disconnect 3]
    (by decide)).1

end Telemetry

namespace Crypto

/-- Error type of the crypto utilities (src/common `Error`); never produced by
`extract_fingerprint`, which always succeeds. -/
inductive Error where
  | CertificateError (msg : String)
deriving DecidableEq, Repr

/-- 2^32, the modulus of u32 arithmetic inside MD5. -/
def u32Mod : Nat := 4294967296

/-- Reduce to a 32-bit value. -/
def w32 (n : Nat) : Nat := n % u32Mod

/-- 32-bit bitwise complement (for x < 2^32). -/
def notW (x : Nat) : Nat := 4294967295 - x

/-- 32-bit left rotation. -/
def rotl (x s : Nat) : Nat :=
  ((x <<< s) % u32Mod) ||| (x >>> (32 - s))

/-- The 64 MD5 sine-derived constants (RFC 1321 table T). -/
def mdK : List Nat :=
  [0xd76aa478, 0xe8c7b756, 0x242070db, 0xc1bdceee,
   0xf57c0faf, 0x4787c62a, 0xa8304613, 0xfd469501,
   0x698098d8, 0x8b44f7af, 0xffff5bb1, 0x895cd7be,
   0x6b901122, 0xfd987193, 0xa679438e, 0x49b40821,
   0xf61e2562, 0xc040b340, 0x265e5a51, 0xe9b6c7aa,
   0xd62f105d, 0x02441453, 0xd8a1e681, 0xe7d3fbc8,
   0x21e1cde6, 0xc33707d6, 0xf4d50d87, 0x455a14ed,
   0xa9e3e905, 0xfcefa3f8, 0x676f02d9, 0x8d2a4c8a,
   0xfffa3942, 0x8771f681, 0x6d9d6122, 0xfde5380c,
   0xa4beea44, 0x4bdecfa9, 0xf6bb4b60, 0xbebfbc70,
   0x289b7ec6, 0xeaa127fa, 0xd4ef3085, 0x04881d05,
   0xd9d4d039, 0xe6db99e5, 0x1fa27cf8, 0xc4ac5665,
   0xf4292244, 0x432aff97, 0xab9423a7, 0xfc93a039,
   0x655b59c3, 0x8f0ccc92, 0xffeff47d, 0x85845dd1,
   0x6fa87e4f, 0xfe2ce6e0, 0xa3014314, 0x4e0811a1,
   0xf7537e82, 0xbd3af235, 0x2ad7d2bb, 0xeb86d391]

/-- The 64 MD5 per-round left-rotation amounts. -/
def mdS : List Nat :=
  [7, 12, 17, 22, 7, 12, 17, 22, 7, 12, 17, 22, 7, 12, 17, 22,
   5, 9, 14, 20, 5, 9, 14, 20, 5, 9, 14, 20, 5, 9, 14, 20,
   4, 11, 16, 23, 4, 11, 16, 23, 4, 11, 16, 23, 4, 11, 16, 23,
   6, 10, 15, 21, 6, 10, 15, 21, 6, 10, 15, 21, 6, 10, 15, 21]

/-- The MD5 round function (F, G, H, I by round quarter). -/
def mdF (i b c d : Nat) : Nat :=
  if i < 16 then (b &&& c) ||| (notW b &&& d)
  else if i < 32 then (d &&& b) ||| (notW d &&& c)
  else if i < 48 then b ^^^ c ^^^ d
  else c ^^^ (b ||| notW d)

/-- The MD5 message-word index per round. -/
def mdG (i : Nat) : Nat :=
  if i < 16 then i
  else if i < 32 then (5 * i + 1) % 16
  else if i < 48 then (3 * i + 5) % 16
  else (7 * i) % 16

/-- One of the 64 MD5 state transitions. -/
def mdStep (m : List Nat) (st : Nat × Nat × Nat × Nat) (i : Nat) :
    Nat × Nat × Nat × Nat :=
  match st with
  | (a, b, c, d) =>
    let f := w32 (a + mdF i b c d + mdK.getD i 0 + m.getD (mdG i) 0)
    (d, w32 (b + rotl f (mdS.getD i 0)), b, c)

/-- Assemble little-endian 32-bit words from bytes. -/
def toWords : List Nat → List Nat
  | b0 :: b1 :: b2 :: b3 :: rest =>
    (b0 + 256 * b1 + 65536 * b2 + 16777216 * b3) :: toWords rest
  | _ => []

/-- Process one 64-byte MD5 block. -/
def processBlock (st : Nat × Nat × Nat × Nat) (block : List Nat) :
    Nat × Nat × Nat × Nat :=
  let m := toWords block
  let r := (List.range 64).foldl (mdStep m) st
  match st, r with
  | (a0, b0, c0, d0), (a, b, c, d) =>
    (w32 (a0 + a), w32 (b0 + b), w32 (c0 + c), w32 (d0 + d))

/-- The bit length as 8 little-endian bytes. -/
def lenBytes (bitLen : Nat) : List Nat :=
  [bitLen % 256, bitLen / 256 % 256, bitLen / 65536 % 256,
   bitLen / 16777216 % 256, bitLen / 4294967296 % 256,
   bitLen / 1099511627776 % 256, bitLen / 281474976710656 % 256,
   bitLen / 72057594037927936 % 256]

/-- MD5 padding: 0x80, zeros to 56 mod 64, then the 64-bit bit length. -/
def padMessage (msg : List Nat) : List Nat :=
  let len := msg.length
  let padZeros := (119 - len % 64) % 64
  msg ++ [128] ++ List.replicate padZeros 0 ++ lenBytes (8 * len)

/-- Split into 64-byte blocks, with fuel for structural recursion. -/
def splitBlocksAux : Nat → List Nat → List (List Nat)
  | 0, _ => []
  | _ + 1, [] => []
  | fuel + 1, l => l.take 64 :: splitBlocksAux fuel (l.drop 64)

/-- Split a (padded) message into its 64-byte blocks. -/
def splitBlocks (l : List Nat) : List (List Nat) :=
  splitBlocksAux (l.length / 64 + 1) l

/-- The MD5 initial state. -/
def mdInit : Nat × Nat × Nat × Nat :=
  (0x67452301, 0xefcdab89, 0x98badcfe, 0x10325476)

/-- A 32-bit word as 4 little-endian bytes. -/
def wordLEBytes (n : Nat) : List Nat :=
  [n % 256, n / 256 % 256, n / 65536 % 256, n / 16777216 % 256]

/-- The 16-byte MD5 digest of a byte sequence (RFC 1321), the algorithm the
md5 crate used by src/crypto/x509.rs implements. -/
def md5Bytes (msg : List Nat) : List Nat :=
  match (splitBlocks (padMessage msg)).foldl processBlock mdInit with
  | (a, b, c, d) =>
    wordLEBytes a ++ wordLEBytes b ++ wordLEBytes c ++ wordLEBytes d

/-- A hex digit character (lowercase), as Rust's `{:x}` renders. -/
def hexDigit (n : Nat) : Char :=
  if n < 10 then Char.ofNat (48 + n) else Char.ofNat (87 + n)

/-- A byte as two lowercase hex characters. -/
def byteHex (b : Nat) : List Char :=
  [hexDigit (b / 16), hexDigit (b % 16)]

/-- The lowercase hex rendering of an MD5 digest. -/
def md5Hex (msg : List Nat) : String :=
  String.mk ((md5Bytes msg).map byteHex).flatten

/-- UTF-8 encoding of one character. -/
def charUtf8 (c : Char) : List Nat :=
  let n := c.toNat
  if n < 128 then [n]
  else if n < 2048 then [192 + n / 64, 128 + n % 64]
  else if n < 65536 then [224 + n / 4096, 128 + n / 64 % 64, 128 + n % 64]
  else [240 + n / 262144, 128 + n / 4096 % 64, 128 + n / 64 % 64, 128 + n % 64]

/-- The UTF-8 bytes of a string (Rust's `str::as_bytes`). -/
def utf8Bytes (s : String) : List Nat :=
  (s.toList.map charUtf8).flatten

/-- `X509Utils::extract_fingerprint` (src/crypto/x509.rs:11-22): despite its
name and its "SHA256:" prefix it hashes the PEM text bytes with MD5 (the md5
crate) and hex-formats the digest; it never fails. -/
def extract_fingerprint (cert_pem : String) : Except Error String :=
  .ok ("SHA256:" ++ md5Hex (utf8Bytes cert_pem))

lemma md5Bytes_length (msg : List Nat) : (md5Bytes msg).length = 16 := by
  unfold md5Bytes
  set st := (splitBlocks (padMessage msg)).foldl processBlock mdInit with hst
  obtain ⟨a, b, c, d⟩ := st
  simp [wordLEBytes]

lemma byteHex_flatten_length (l : List Nat) :
    ((l.map byteHex).flatten).length = 2 * l.length := by
  induction l with
  | nil => rfl
  | cons x xs ih =>
    simp only [List.map_cons, List.flatten_cons, List.length_append, ih,
      List.length_cons, byteHex, List.length_cons, List.length_nil]
    omega

lemma md5Hex_length (msg : List Nat) : (md5Hex msg).length = 32 := by
  show ((md5Bytes msg).map byteHex).flatten.length = 32
  rw [byteHex_flatten_length, md5Bytes_length]

set_option maxRecDepth 100000 in
/-- C4: the stored fingerprint is not the SHA-256 hex of the certificate DER:
`extract_fingerprint` returns "SHA256:" followed by the 32-hex-character MD5
digest of the PEM text (checked here against MD5's standard value on the input
"test", with the empty-input MD5 test vector validating the embedding), so
every fingerprint has length 39 and can never be a 64-hex-character SHA-256
digest. -/
theorem extract_fingerprint_is_md5_of_pem :
    extract_fingerprint "test" =
      .ok "SHA256:098f6bcd4621d373cade4e832627b4f6" ∧
    md5Hex [] = "d41d8cd98f00b204e9800998ecf8427e" ∧
    (∀ pem : String,
      extract_fingerprint pem = .ok ("SHA256:" ++ md5Hex (utf8Bytes pem)) ∧
      ("SHA256:" ++ md5Hex (utf8Bytes pem)).length = 39 ∧
      ("SHA256:" ++ md5Hex (utf8Bytes pem)).length ≠ 64) := by
  refine ⟨by decide, by decide, ?_⟩
  intro pem
  refine ⟨rfl, ?_, ?_⟩
  · rw [String.length_append, md5Hex_length]
    decide
  · rw [String.length_append, md5Hex_length]
    decide

end Crypto
